import Mathlib

/-!
Verification of the bias detection-and-correction engine of the
BiasRemoveFramework repository (src/analytics/bias_correction.py, with the
Genero enum from src/models/pessoa.py).

Modelling conventions:
* Python floats are modelled as rationals (ℚ); the NaN produced by numpy and
  scipy 0/0 divisions is modelled explicitly by a dedicated constructor.
* A Python dict read through dict.get with a default is modelled as the total
  function it denotes; the entity-keyed score dict, whose insertion order the
  code iterates over, is modelled as an association list.
* The scipy t-distribution survival function (the only external numerics the
  engine consumes) is an explicit parameter of the embedding, so every theorem
  holds for every possible survival function; the degenerate zero-variance
  cases, which scipy resolves by IEEE division (giving an infinite t statistic
  and p-value 0, or NaN), are modelled by the corresponding branch.
-/

namespace BiasRemove

/-- Gender enum of src/models/pessoa.py (class Genero). -/
inductive Genero where
  | MASCULINO
  | FEMININO
  | OUTRO
  | NAO_INFORMADO
deriving DecidableEq, Repr

/-- A Python float that the engine can produce: a finite value (a rational)
or the NaN that numpy/scipy yield for 0/0. -/
inductive FVal where
  | val : ℚ → FVal
  | nan : FVal
deriving DecidableEq, Repr

/-- IEEE comparison of a possibly-NaN value against a finite bound:
any comparison with NaN is false. -/
def FVal.ltB (p : FVal) (a : ℚ) : Bool :=
  match p with
  | .val q => q < a
  | .nan => false

/-- Value of numpy std with ddof=1, which is the square root of the sample
variance. Square roots of rationals are irrational in general, so the finite
case carries the radicand: sqrtOf v denotes the real number sqrt v (in
particular sqrtOf 0 denotes 0); nan is the 0/0 numpy produces when
n - ddof = 0. -/
inductive StdVal where
  | sqrtOf : ℚ → StdVal
  | nan : StdVal
deriving DecidableEq, Repr

/-- Value of np.mean: sum of the elements over their number. -/
def npMean (l : List ℚ) : ℚ := l.sum / l.length

/-- Value of np.min on a non-empty array (0 on the empty one, never used). -/
def npMin : List ℚ → ℚ
  | [] => 0
  | x :: xs => xs.foldl min x

/-- Value of np.max on a non-empty array (0 on the empty one, never used). -/
def npMax : List ℚ → ℚ
  | [] => 0
  | x :: xs => xs.foldl max x

/-- Sample variance with ddof = 1 (Bessel), the radicand inside np.std(arr,
ddof=1); meaningful for lists of length at least 2. -/
def sampleVar (l : List ℚ) : ℚ :=
  (l.map (fun x => (x - npMean l) ^ 2)).sum / ((l.length : ℚ) - 1)

/-- Value of np.std(arr, ddof=1): for n = 1 (and n = 0) numpy divides 0 by
n - 1 = 0 and yields NaN (with a degrees-of-freedom RuntimeWarning), else the
square root of the sample variance. -/
def npStdDdof1 (l : List ℚ) : StdVal :=
  if l.length ≤ 1 then .nan else .sqrtOf (sampleVar l)

/-- Value of np.median: middle element of the sorted array, or the average of
the two middle elements for even length. -/
def npMedian (l : List ℚ) : ℚ :=
  let s := l.insertionSort (· ≤ ·)
  let n := l.length
  if n % 2 = 1 then s.getD (n / 2) 0
  else (s.getD (n / 2 - 1) 0 + s.getD (n / 2) 0) / 2

/-- Value of np.percentile(arr, p) with the default linear interpolation:
with h = (n - 1) * p / 100, interpolate between the sorted elements at
positions floor h and ceil h. -/
def npPercentile (l : List ℚ) (p : ℚ) : ℚ :=
  let s := l.insertionSort (· ≤ ·)
  let h : ℚ := ((l.length : ℚ) - 1) * p / 100
  let lo := s.getD (⌊h⌋).toNat 0
  let hi := s.getD (⌈h⌉).toNat 0
  lo + (h - ⌊h⌋) * (hi - lo)

/-- Dataclass EstatisticasDistribuicao of bias_correction.py. -/
structure EstatisticasDistribuicao where
  media : ℚ
  mediana : ℚ
  desvio_padrao : StdVal
  minimo : ℚ
  maximo : ℚ
  quartil_25 : ℚ
  quartil_75 : ℚ
  tamanho : ℕ
deriving DecidableEq, Repr

/-- Dataclass ResultadoAnaliseVies of bias_correction.py. -/
structure ResultadoAnaliseVies where
  estatisticas_feminino : EstatisticasDistribuicao
  estatisticas_masculino : EstatisticasDistribuicao
  diferenca_medias : ℚ
  diferenca_percentual : ℚ
  p_value : FVal
  vies_detectado : Bool
  significancia_estatistica : Bool
deriving DecidableEq, Repr

/-- Dataclass ResultadoReponderacao of bias_correction.py. The two score
dicts are association lists over entity ids. -/
structure ResultadoReponderacao where
  peso_ajuste_feminino : ℚ
  peso_ajuste_masculino : ℚ
  scores_originais : List (String × ℚ)
  scores_ajustados : List (String × ℚ)
  analise_pre_ajuste : ResultadoAnaliseVies
  analise_pos_ajuste : Option ResultadoAnaliseVies
deriving DecidableEq, Repr

/-- Configuration of class BiasAnalyzer: threshold_vies and alpha, both
defaulting to 0.05. -/
structure BiasAnalyzer where
  threshold_vies : ℚ := 5 / 100
  alpha : ℚ := 5 / 100
deriving DecidableEq, Repr

/-- BiasAnalyzer.calcular_estatisticas: all-zero statistics for the empty
list (the code returns the literal 0 for desvio_padrao there, i.e. sqrtOf 0),
otherwise the numpy descriptive statistics of the array. -/
def calcular_estatisticas (valores : List ℚ) : EstatisticasDistribuicao :=
  if valores = [] then
    { media := 0, mediana := 0, desvio_padrao := .sqrtOf 0, minimo := 0,
      maximo := 0, quartil_25 := 0, quartil_75 := 0, tamanho := 0 }
  else
    { media := npMean valores
      mediana := npMedian valores
      desvio_padrao := npStdDdof1 valores
      minimo := npMin valores
      maximo := npMax valores
      quartil_25 := npPercentile valores 25
      quartil_75 := npPercentile valores 75
      tamanho := valores.length }

/-- Value of scipy.stats.ttest_ind(a, b) (Student t, equal_var=True,
two-sided p-value), called by the analyzer only with both lists longer
than 1. The external t-distribution tail is abstracted by tp, giving the
two-sided p-value from the squared t statistic and the degrees of freedom.
When the pooled standard error is zero, scipy's IEEE division yields an
infinite t statistic and p-value 0 if the means differ, and NaN otherwise. -/
def ttest_ind_p (tp : ℚ → ℕ → ℚ) (a b : List ℚ) : FVal :=
  let n1 := a.length
  let n2 := b.length
  let df := n1 + n2 - 2
  let sp := (((n1 : ℚ) - 1) * sampleVar a + ((n2 : ℚ) - 1) * sampleVar b) / (df : ℚ)
  let se2 := sp * (1 / (n1 : ℚ) + 1 / (n2 : ℚ))
  let d := npMean a - npMean b
  if se2 = 0 then (if d = 0 then .nan else .val 0) else .val (tp (d ^ 2 / se2) df)

/-- BiasAnalyzer.analisar_vies_genero. The input dict is read only through
scores_por_genero.get(g, []), modelled as the total function it denotes.
tp is the t-distribution tail used by scipy (see ttest_ind_p). -/
def analisar_vies_genero (self : BiasAnalyzer) (tp : ℚ → ℕ → ℚ)
    (scores_por_genero : Genero → List ℚ) : ResultadoAnaliseVies :=
  let scores_f := scores_por_genero Genero.FEMININO
  let scores_m := scores_por_genero Genero.MASCULINO
  let stats_f := calcular_estatisticas scores_f
  let stats_m := calcular_estatisticas scores_m
  let diferenca_medias := stats_m.media - stats_f.media
  let diferenca_percentual :=
    if stats_f.media > 0 then diferenca_medias / stats_f.media else 0
  let p_value :=
    if 1 < scores_f.length ∧ 1 < scores_m.length then ttest_ind_p tp scores_m scores_f
    else .val 1
  { estatisticas_feminino := stats_f
    estatisticas_masculino := stats_m
    diferenca_medias := diferenca_medias
    diferenca_percentual := diferenca_percentual
    p_value := p_value
    vies_detectado := decide (|diferenca_percentual| > self.threshold_vies)
    significancia_estatistica := p_value.ltB self.alpha }

/-- BiasCorrector.__init__ stores a BiasAnalyzer() with the default
configuration. -/
def corretorAnalyzer : BiasAnalyzer := {}

/-- BiasCorrector.calcular_pesos_ajuste. -/
def calcular_pesos_ajuste (scores_por_genero : Genero → List ℚ) : ℚ × ℚ :=
  let scores_f := scores_por_genero Genero.FEMININO
  let scores_m := scores_por_genero Genero.MASCULINO
  if scores_f = [] ∨ scores_m = [] then (1, 1)
  else
    let media_f := npMean scores_f
    let media_m := npMean scores_m
    if media_f = 0 then (1, 1)
    else (media_m / media_f, 1)

/-- Grouping loop of BiasCorrector.aplicar_reponderacao: iterate over the
scores dict and append each score whose entity's gender is FEMININO or
MASCULINO to that gender's list; the resulting dict is read back with
.get(g, []), i.e. it is [] outside those two keys. -/
def agrupar_scores (scores : List (String × ℚ)) (generos : String → Option Genero) :
    Genero → List ℚ := fun g =>
  if g = Genero.FEMININO ∨ g = Genero.MASCULINO then
    (scores.filter (fun pr => generos pr.1 = some g)).map Prod.snd
  else []

/-- Python round to the nearest integer, ties to even (banker's rounding). -/
def roundHalfEven (q : ℚ) : ℤ :=
  if q - ⌊q⌋ < 1 / 2 then ⌊q⌋
  else if q - ⌊q⌋ > 1 / 2 then ⌊q⌋ + 1
  else if ⌊q⌋ % 2 = 0 then ⌊q⌋ else ⌊q⌋ + 1

/-- Python round(x, 2): round to 2 decimal places, ties to even. -/
def round2 (q : ℚ) : ℚ := (roundHalfEven (q * 100) : ℚ) / 100

/-- BiasCorrector.aplicar_reponderacao, with the corrector's analyzer fixed
at the default configuration exactly as __init__ builds it. generos is the
entity-to-gender dict read through .get, scores the entity-to-score dict in
its iteration order. -/
def aplicar_reponderacao (tp : ℚ → ℕ → ℚ) (scores : List (String × ℚ))
    (generos : String → Option Genero) (aplicar_correcao : Bool) :
    ResultadoReponderacao :=
  let scores_por_genero := agrupar_scores scores generos
  let analise_pre := analisar_vies_genero corretorAnalyzer tp scores_por_genero
  let pesos := calcular_pesos_ajuste scores_por_genero
  let peso_f := pesos.1
  let peso_m := pesos.2
  if aplicar_correcao && analise_pre.vies_detectado then
    let scores_ajustados := scores.map (fun pr =>
      let genero := (generos pr.1).getD Genero.NAO_INFORMADO
      let score_ajustado :=
        if genero = Genero.FEMININO then min 10 (pr.2 * peso_f)
        else if genero = Genero.MASCULINO then pr.2 * peso_m
        else pr.2
      (pr.1, round2 score_ajustado))
    let analise_pos :=
      analisar_vies_genero corretorAnalyzer tp (agrupar_scores scores_ajustados generos)
    { peso_ajuste_feminino := peso_f
      peso_ajuste_masculino := peso_m
      scores_originais := scores
      scores_ajustados := scores_ajustados
      analise_pre_ajuste := analise_pre
      analise_pos_ajuste := some analise_pos }
  else
    { peso_ajuste_feminino := peso_f
      peso_ajuste_masculino := peso_m
      scores_originais := scores
      scores_ajustados := scores
      analise_pre_ajuste := analise_pre
      analise_pos_ajuste := none }

/-- A concrete stand-in for the t-distribution tail, used to instantiate the
tp parameter in concrete scenarios (none of which reach the tail). -/
def tpHalf : ℚ → ℕ → ℚ := fun _ _ => 1 / 2

/-! ## Concrete inputs used in witnesses and counterexamples -/

/-- Group mapping with a single sample 5 for FEMININO and two samples for
MASCULINO. -/
def spgPoucasAmostras : Genero → List ℚ := fun g =>
  match g with
  | .FEMININO => [5]
  | .MASCULINO => [1, 2]
  | _ => []

/-- Two constant groups of two samples each, with different means (zero
variance in both groups). -/
def spgConstante : Genero → List ℚ := fun g =>
  match g with
  | .FEMININO => [7, 7]
  | .MASCULINO => [8, 8]
  | _ => []

/-- Group FEMININO with a negative mean. -/
def spgNegativo : Genero → List ℚ := fun g =>
  match g with
  | .FEMININO => [-1]
  | .MASCULINO => [2]
  | _ => []

/-- One sample per group: 1 for FEMININO, 2 for MASCULINO. -/
def spgSimples : Genero → List ℚ := fun g =>
  match g with
  | .FEMININO => [1]
  | .MASCULINO => [2]
  | _ => []

/-- Group means 100 and 105: the relative difference is exactly the default
threshold 0.05. -/
def spgEmpate : Genero → List ℚ := fun g =>
  match g with
  | .FEMININO => [100]
  | .MASCULINO => [105]
  | _ => []

/-- Entity-to-gender dict used in concrete scenarios: f is FEMININO, m is
MASCULINO, every other entity has no recorded gender. -/
def generosPadrao : String → Option Genero := fun s =>
  if s = "f" then some Genero.FEMININO
  else if s = "m" then some Genero.MASCULINO
  else none

/-- Scores of one FEMININO entity (1) and one MASCULINO entity (2): the gap
makes the pre-analysis detect bias. -/
def scoresFM : List (String × ℚ) := [("f", 1), ("m", 2)]

/-- Scores adding an entity x with no recorded gender and the score
1/8 = 0.125, which is not representable with 2 decimal places. -/
def scoresComExtra : List (String × ℚ) := [("x", 1 / 8), ("f", 1), ("m", 2)]

/-- Entity-to-gender dict for the out-of-domain scenario. -/
def generosAltos : String → Option Genero := fun s =>
  if s = "f" then some Genero.FEMININO
  else if s = "m1" then some Genero.MASCULINO
  else if s = "m2" then some Genero.MASCULINO
  else none

/-- Scores where the two MASCULINO entities carry the out-of-domain value
12. -/
def scoresAltos : List (String × ℚ) := [("f", 1), ("m1", 12), ("m2", 12)]

/-! ## Helper lemmas -/

/-- Helper: the second component of calcular_pesos_ajuste (the masculino
weight) is 1 on every input, in every branch. -/
theorem pesos_ajuste_masculino_eq_one (spg : Genero → List ℚ) :
    (calcular_pesos_ajuste spg).2 = 1 := by
  simp only [calcular_pesos_ajuste]
  split_ifs <;> rfl

/-- Helper: banker's rounding never exceeds an integer bound the argument
respects. -/
theorem roundHalfEven_le (q : ℚ) (z : ℤ) (h : q ≤ (z : ℚ)) : roundHalfEven q ≤ z := by
  have hfl : ⌊q⌋ ≤ z := by
    have h2 := Int.floor_le_floor h
    simpa using h2
  have hcase : 1 / 2 ≤ q - ⌊q⌋ → ⌊q⌋ + 1 ≤ z := by
    intro hge
    rcases lt_or_eq_of_le hfl with h4 | h4
    · omega
    · exfalso
      have hq : q ≤ ((⌊q⌋ : ℤ) : ℚ) := by
        rw [h4]; exact_mod_cast h
      have hfle := Int.floor_le q
      linarith
  simp only [roundHalfEven]
  split_ifs with h1 h2 h3
  · exact hfl
  · exact hcase (le_of_lt h2)
  · exact hfl
  · exact hcase (le_of_not_lt h1)

/-- Helper: rounding to 2 decimal places preserves the ceiling 10. -/
theorem round2_le_ten (q : ℚ) (h : q ≤ 10) : round2 q ≤ 10 := by
  have h1 : q * 100 ≤ ((1000 : ℤ) : ℚ) := by push_cast; linarith
  have h2 := roundHalfEven_le (q * 100) 1000 h1
  have h3 : ((roundHalfEven (q * 100) : ℤ) : ℚ) ≤ 1000 := by exact_mod_cast h2
  simp only [round2]
  linarith

/-- Helper: the pre-adjustment analysis reported by apply_reweighting is the
analysis of the grouped input scores, on both paths. -/
theorem aplicar_analise_pre (tp : ℚ → ℕ → ℚ) (scores : List (String × ℚ))
    (generos : String → Option Genero) (b : Bool) :
    (aplicar_reponderacao tp scores generos b).analise_pre_ajuste =
      analisar_vies_genero corretorAnalyzer tp (agrupar_scores scores generos) := by
  simp only [aplicar_reponderacao]
  split <;> rfl

/-! ## C1 -/

/-- C1: compute_statistics on sample lists of length at most 1 is claimed to
return standard deviation 0. The empty list does give 0 (the explicit guard),
but on the one-element list [5] the code computes np.std([5], ddof=1), a 0/0
division that yields NaN, not 0. -/
theorem C1_singleton_std_nan :
    (calcular_estatisticas [5]).desvio_padrao = StdVal.nan ∧
    (calcular_estatisticas []).desvio_padrao = StdVal.sqrtOf 0 := by
  constructor
  · simp [calcular_estatisticas, npStdDdof1]
  · simp [calcular_estatisticas]

/-! ## C2 -/

/-- C2, counterexample: on the input with FEMININO = [7, 7] and MASCULINO =
[8, 8] — both groups single-valued with zero variance and more than one
sample — the t-test is run and its degenerate division produces p-value 0,
not the claimed 1.0. -/
theorem C2_zero_variance_counterexample :
    (analisar_vies_genero {} tpHalf spgConstante).p_value = FVal.val 0 ∧
    (analisar_vies_genero {} tpHalf spgConstante).p_value ≠ FVal.val 1 := by
  have h : (analisar_vies_genero {} tpHalf spgConstante).p_value = FVal.val 0 := by
    norm_num [analisar_vies_genero, spgConstante, ttest_ind_p, sampleVar, npMean]
  exact ⟨h, by rw [h]; intro hc; exact absurd (FVal.val.inj hc) (by norm_num)⟩

/-- C2, amended: whenever either group has at most 1 sample, analyze_bias
returns p-value exactly 1.0 (the t-test runs only when both groups have more
than one sample); this holds for every analyzer configuration and every
t-distribution tail. -/
theorem C2_small_sample_pvalue_one (an : BiasAnalyzer) (tp : ℚ → ℕ → ℚ)
    (spg : Genero → List ℚ)
    (h : (spg Genero.FEMININO).length ≤ 1 ∨ (spg Genero.MASCULINO).length ≤ 1) :
    (analisar_vies_genero an tp spg).p_value = FVal.val 1 := by
  simp only [analisar_vies_genero]
  rcases h with h | h
  · rw [if_neg (by omega)]
  · rw [if_neg (by omega)]

/-- C2, witness: the amended theorem applied to the concrete input whose
FEMININO group has the single sample 5. -/
theorem C2_small_sample_pvalue_one_witness :
    (spgPoucasAmostras Genero.FEMININO).length ≤ 1 ∧
    (analisar_vies_genero {} tpHalf spgPoucasAmostras).p_value = FVal.val 1 :=
  ⟨by decide, C2_small_sample_pvalue_one {} tpHalf spgPoucasAmostras (Or.inl (by decide))⟩

/-! ## C3 -/

/-- C3, counterexample: on the input with FEMININO = [-1] and MASCULINO =
[2], group A's mean is -1 (nonzero), so the claim demands relative difference
3 / (-1) = -3, but the code's strict positivity test makes it 0. -/
theorem C3_negative_mean_counterexample :
    (analisar_vies_genero {} tpHalf spgNegativo).estatisticas_feminino.media = -1 ∧
    (analisar_vies_genero {} tpHalf spgNegativo).diferenca_medias = 3 ∧
    (analisar_vies_genero {} tpHalf spgNegativo).diferenca_percentual = 0 ∧
    (0 : ℚ) ≠ 3 / (-1) := by
  refine ⟨?_, ?_, ?_, by norm_num⟩ <;>
    norm_num [analisar_vies_genero, spgNegativo, calcular_estatisticas, npMean]

/-- C3, amended: the relative difference equals mean difference divided by
group A's mean whenever that mean is strictly positive, and equals 0 whenever
that mean is nonpositive (in particular when it is 0). -/
theorem C3_relative_difference (an : BiasAnalyzer) (tp : ℚ → ℕ → ℚ)
    (spg : Genero → List ℚ) :
    ((analisar_vies_genero an tp spg).estatisticas_feminino.media > 0 →
      (analisar_vies_genero an tp spg).diferenca_percentual =
        (analisar_vies_genero an tp spg).diferenca_medias /
          (analisar_vies_genero an tp spg).estatisticas_feminino.media) ∧
    ((analisar_vies_genero an tp spg).estatisticas_feminino.media ≤ 0 →
      (analisar_vies_genero an tp spg).diferenca_percentual = 0) := by
  simp only [analisar_vies_genero]
  constructor
  · intro h
    rw [if_pos h]
  · intro h
    rw [if_neg (by linarith)]

/-- C3, witness: the positive-mean branch of the amended theorem at the
concrete input with means 1 and 2. -/
theorem C3_relative_difference_witness :
    (analisar_vies_genero {} tpHalf spgSimples).estatisticas_feminino.media > 0 ∧
    (analisar_vies_genero {} tpHalf spgSimples).diferenca_percentual =
      (analisar_vies_genero {} tpHalf spgSimples).diferenca_medias /
        (analisar_vies_genero {} tpHalf spgSimples).estatisticas_feminino.media := by
  have h : (analisar_vies_genero {} tpHalf spgSimples).estatisticas_feminino.media > 0 := by
    norm_num [analisar_vies_genero, spgSimples, calcular_estatisticas, npMean]
  exact ⟨h, (C3_relative_difference {} tpHalf spgSimples).1 h⟩

/-! ## C4 -/

/-- C4, counterexample: entity x has no recorded gender and score
1/8 = 0.125; bias is detected and correction applied, and x's score comes
back as round(0.125, 2) = 0.12 = 3/25, not exactly preserved. -/
theorem C4_rounding_counterexample :
    (aplicar_reponderacao tpHalf scoresComExtra generosPadrao true).scores_originais.lookup "x"
      = some (1 / 8) ∧
    (aplicar_reponderacao tpHalf scoresComExtra generosPadrao true).scores_ajustados.lookup "x"
      = some (3 / 25) ∧
    ((3 : ℚ) / 25) ≠ 1 / 8 := by
  refine ⟨?_, ?_, by norm_num⟩
  · norm_num +decide [aplicar_reponderacao, scoresComExtra, generosPadrao, agrupar_scores,
      analisar_vies_genero, calcular_estatisticas, npMean, calcular_pesos_ajuste,
      List.filter, List.lookup, corretorAnalyzer]
  · norm_num +decide [aplicar_reponderacao, scoresComExtra, generosPadrao, agrupar_scores,
      analisar_vies_genero, calcular_estatisticas, npMean, calcular_pesos_ajuste,
      List.filter, round2, roundHalfEven, min_def]
    norm_num +decide [corretorAnalyzer, Int.fract, List.lookup]

/-- C4, amended: an entity whose recorded group is neither FEMININO nor
MASCULINO (including entities missing from the gender mapping) keeps its
score exactly when no correction is applied (post-analysis None), and keeps
round(score, 2) when a correction is applied (post-analysis present). -/
theorem C4_unknown_group_preserved (tp : ℚ → ℕ → ℚ) (scores : List (String × ℚ))
    (generos : String → Option Genero) (b : Bool) (pr : String × ℚ)
    (hmem : pr ∈ scores)
    (hF : generos pr.1 ≠ some Genero.FEMININO)
    (hM : generos pr.1 ≠ some Genero.MASCULINO) :
    ((aplicar_reponderacao tp scores generos b).analise_pos_ajuste = none →
      pr ∈ (aplicar_reponderacao tp scores generos b).scores_ajustados) ∧
    ((aplicar_reponderacao tp scores generos b).analise_pos_ajuste ≠ none →
      (pr.1, round2 pr.2) ∈ (aplicar_reponderacao tp scores generos b).scores_ajustados) := by
  simp only [aplicar_reponderacao]
  split
  · constructor
    · intro h
      simp at h
    · intro _
      simp only [List.mem_map]
      refine ⟨pr, hmem, ?_⟩
      rcases hgen : generos pr.1 with _ | g
      · simp [hgen]
      · cases g with
        | MASCULINO => exact absurd hgen hM
        | FEMININO => exact absurd hgen hF
        | OUTRO => simp [hgen]
        | NAO_INFORMADO => simp [hgen]
  · constructor
    · intro _
      exact hmem
    · intro h
      exact absurd rfl h

/-- C4, witness: the amended theorem at the concrete scenario of the
counterexample, for the genderless entity x. -/
theorem C4_unknown_group_preserved_witness :
    ("x", (1 / 8 : ℚ)) ∈ scoresComExtra ∧
    generosPadrao "x" ≠ some Genero.FEMININO ∧
    (((aplicar_reponderacao tpHalf scoresComExtra generosPadrao true).analise_pos_ajuste = none →
        ("x", (1 / 8 : ℚ)) ∈
          (aplicar_reponderacao tpHalf scoresComExtra generosPadrao true).scores_ajustados) ∧
      ((aplicar_reponderacao tpHalf scoresComExtra generosPadrao true).analise_pos_ajuste ≠ none →
        (("x", (1 / 8 : ℚ)).1, round2 ("x", (1 / 8 : ℚ)).2) ∈
          (aplicar_reponderacao tpHalf scoresComExtra generosPadrao true).scores_ajustados)) := by
  have hmem : ("x", (1 / 8 : ℚ)) ∈ scoresComExtra := by
    simp [scoresComExtra]
  exact ⟨hmem, by decide,
    C4_unknown_group_preserved tpHalf scoresComExtra generosPadrao true ("x", 1 / 8)
      hmem (by decide) (by decide)⟩

/-! ## C5 -/

/-- C5, counterexample: with an out-of-domain MASCULINO score 12, the
correction fires (the post-analysis is present) yet the adjusted scores keep
the value 12, which exceeds 10: the MASCULINO and unknown-group branches are
not clamped. -/
theorem C5_out_of_range_counterexample :
    (aplicar_reponderacao tpHalf scoresAltos generosAltos true).analise_pos_ajuste ≠ none ∧
    ("m1", (12 : ℚ)) ∈
      (aplicar_reponderacao tpHalf scoresAltos generosAltos true).scores_ajustados ∧
    ¬ ((12 : ℚ) ≤ 10) := by
  refine ⟨?_, ?_, by norm_num⟩
  · norm_num +decide [aplicar_reponderacao, scoresAltos, generosAltos, agrupar_scores,
      analisar_vies_genero, calcular_estatisticas, npMean, calcular_pesos_ajuste,
      List.filter, corretorAnalyzer]
  · norm_num +decide [aplicar_reponderacao, scoresAltos, generosAltos, agrupar_scores,
      analisar_vies_genero, calcular_estatisticas, npMean, calcular_pesos_ajuste,
      List.filter, round2, roundHalfEven, min_def]
    norm_num +decide [corretorAnalyzer, Int.fract]

/-- C5, amended: provided every input score is at most 10, every score in the
returned adjusted mapping is at most 10, on both the correction and the
no-correction path (the unclamped MASCULINO and unknown-group branches cannot
raise a bounded score). -/
theorem C5_scores_bounded (tp : ℚ → ℕ → ℚ) (scores : List (String × ℚ))
    (generos : String → Option Genero) (b : Bool) (pr : String × ℚ)
    (hb : ∀ q ∈ scores, q.2 ≤ 10)
    (hmem : pr ∈ (aplicar_reponderacao tp scores generos b).scores_ajustados) :
    pr.2 ≤ 10 := by
  simp only [aplicar_reponderacao] at hmem
  split at hmem
  · simp only [List.mem_map] at hmem
    obtain ⟨q, hq, rfl⟩ := hmem
    simp only []
    apply round2_le_ten
    split_ifs
    · exact min_le_left 10 _
    · rw [pesos_ajuste_masculino_eq_one, mul_one]
      exact hb q hq
    · exact hb q hq
  · exact hb pr hmem

/-- C5, witness: the amended theorem at the concrete in-domain input whose
correction fires; the MASCULINO entity keeps its score 2, which is at most
10. -/
theorem C5_scores_bounded_witness :
    (∀ q ∈ scoresFM, q.2 ≤ 10) ∧
    ("m", (2 : ℚ)) ∈
      (aplicar_reponderacao tpHalf scoresFM generosPadrao true).scores_ajustados ∧
    ((("m", (2 : ℚ)) : String × ℚ).2 ≤ 10) := by
  have hb : ∀ q ∈ scoresFM, q.2 ≤ 10 := by
    intro q hq
    rcases List.mem_cons.mp hq with h | h
    · rw [h]; norm_num
    · rcases List.mem_cons.mp h with h2 | h2
      · rw [h2]; norm_num
      · simp at h2
  have hmem : ("m", (2 : ℚ)) ∈
      (aplicar_reponderacao tpHalf scoresFM generosPadrao true).scores_ajustados := by
    norm_num +decide [aplicar_reponderacao, scoresFM, generosPadrao, agrupar_scores,
      analisar_vies_genero, calcular_estatisticas, npMean, calcular_pesos_ajuste,
      List.filter, round2, roundHalfEven, min_def]
    norm_num +decide [corretorAnalyzer, Int.fract]
  exact ⟨hb, hmem,
    C5_scores_bounded tpHalf scoresFM generosPadrao true ("m", 2) hb hmem⟩

/-! ## C6 -/

/-- C6: on both paths the adjusted score mapping has exactly the keys of the
original score mapping, in the same order. -/
theorem C6_key_set (tp : ℚ → ℕ → ℚ) (scores : List (String × ℚ))
    (generos : String → Option Genero) (b : Bool) :
    (aplicar_reponderacao tp scores generos b).scores_ajustados.map Prod.fst =
      (aplicar_reponderacao tp scores generos b).scores_originais.map Prod.fst := by
  simp only [aplicar_reponderacao]
  split
  · simp only [List.map_map]
    rfl
  · rfl

/-! ## C7 -/

/-- C7: with apply_correction false, or when the pre-analysis detects no
bias, the adjusted scores are exactly the input scores and the
post-adjustment analysis is None. -/
theorem C7_passthrough (tp : ℚ → ℕ → ℚ) (scores : List (String × ℚ))
    (generos : String → Option Genero) (b : Bool)
    (h : b = false ∨
      (aplicar_reponderacao tp scores generos b).analise_pre_ajuste.vies_detectado = false) :
    (aplicar_reponderacao tp scores generos b).scores_ajustados = scores ∧
    (aplicar_reponderacao tp scores generos b).analise_pos_ajuste = none := by
  have hc : (b && (analisar_vies_genero corretorAnalyzer tp
      (agrupar_scores scores generos)).vies_detectado) = false := by
    rcases h with h | h
    · rw [h, Bool.false_and]
    · rw [aplicar_analise_pre] at h
      rw [h, Bool.and_false]
  simp only [aplicar_reponderacao, hc]
  exact ⟨rfl, rfl⟩

/-- C7, witness: the theorem at a concrete input with apply_correction
false. -/
theorem C7_passthrough_witness :
    (false = false ∨
      (aplicar_reponderacao tpHalf scoresFM generosPadrao false).analise_pre_ajuste.vies_detectado
        = false) ∧
    (aplicar_reponderacao tpHalf scoresFM generosPadrao false).scores_ajustados = scoresFM ∧
    (aplicar_reponderacao tpHalf scoresFM generosPadrao false).analise_pos_ajuste = none :=
  ⟨Or.inl rfl, C7_passthrough tpHalf scoresFM generosPadrao false (Or.inl rfl)⟩

/-! ## C8 -/

/-- C8: compute_adjustment_weights returns (mean of MASCULINO / mean of
FEMININO, 1.0) when both groups are non-empty and FEMININO's mean is nonzero,
returns (1.0, 1.0) when either group is empty or FEMININO's mean is 0, and
the MASCULINO (baseline) weight is 1.0 in every case. -/
theorem C8_adjustment_weights (spg : Genero → List ℚ) :
    (spg Genero.FEMININO ≠ [] → spg Genero.MASCULINO ≠ [] →
      npMean (spg Genero.FEMININO) ≠ 0 →
      calcular_pesos_ajuste spg =
        (npMean (spg Genero.MASCULINO) / npMean (spg Genero.FEMININO), 1)) ∧
    ((spg Genero.FEMININO = [] ∨ spg Genero.MASCULINO = [] ∨
        npMean (spg Genero.FEMININO) = 0) →
      calcular_pesos_ajuste spg = (1, 1)) ∧
    (calcular_pesos_ajuste spg).2 = 1 := by
  refine ⟨?_, ?_, pesos_ajuste_masculino_eq_one spg⟩
  · intro hf hm h0
    simp only [calcular_pesos_ajuste]
    rw [if_neg (by tauto), if_neg h0]
  · intro h
    simp only [calcular_pesos_ajuste]
    rcases h with h | h | h
    · rw [if_pos (Or.inl h)]
    · rw [if_pos (Or.inr h)]
    · split_ifs <;> simp_all

/-- C8, witness: the non-degenerate branch of the theorem at the input with
one sample per group (means 1 and 2): the weights are (2 / 1, 1). -/
theorem C8_adjustment_weights_witness :
    spgSimples Genero.FEMININO ≠ [] ∧ npMean (spgSimples Genero.FEMININO) ≠ 0 ∧
    calcular_pesos_ajuste spgSimples =
      (npMean (spgSimples Genero.MASCULINO) / npMean (spgSimples Genero.FEMININO), 1) := by
  have hf : spgSimples Genero.FEMININO ≠ [] := by simp [spgSimples]
  have hm : spgSimples Genero.MASCULINO ≠ [] := by simp [spgSimples]
  have h0 : npMean (spgSimples Genero.FEMININO) ≠ 0 := by
    norm_num [spgSimples, npMean]
  exact ⟨hf, h0, (C8_adjustment_weights spgSimples).1 hf hm h0⟩

/-! ## C9 -/

/-- C9: analyze_bias flags bias exactly when the absolute relative difference
strictly exceeds the configured threshold; when they are equal, bias is not
flagged. -/
theorem C9_strict_threshold (an : BiasAnalyzer) (tp : ℚ → ℕ → ℚ)
    (spg : Genero → List ℚ) :
    ((analisar_vies_genero an tp spg).vies_detectado = true ↔
      |(analisar_vies_genero an tp spg).diferenca_percentual| > an.threshold_vies) ∧
    (|(analisar_vies_genero an tp spg).diferenca_percentual| = an.threshold_vies →
      (analisar_vies_genero an tp spg).vies_detectado = false) := by
  constructor
  · simp [analisar_vies_genero]
  · intro h
    simp only [analisar_vies_genero] at h ⊢
    rw [h]
    simp

/-- C9, witness: at the input with group means 100 and 105 the relative
difference is exactly the default threshold 0.05, and bias is not
detected. -/
theorem C9_strict_threshold_witness :
    |(analisar_vies_genero {} tpHalf spgEmpate).diferenca_percentual| =
      BiasAnalyzer.threshold_vies {} ∧
    (analisar_vies_genero {} tpHalf spgEmpate).vies_detectado = false := by
  have h : |(analisar_vies_genero {} tpHalf spgEmpate).diferenca_percentual| =
      BiasAnalyzer.threshold_vies {} := by
    norm_num [analisar_vies_genero, spgEmpate, calcular_estatisticas, npMean, abs]
  exact ⟨h, (C9_strict_threshold {} tpHalf spgEmpate).2 h⟩

/-! ## C10 -/

/-- C10: the returned CorrectionResult always carries the weights computed by
compute_adjustment_weights on the grouped input, on both paths; and at a
concrete no-correction call (apply_correction false) the FEMININO weight is
strictly above 1 while the adjusted scores are the unmodified input and the
post-analysis is None. -/
theorem C10_weights_reported (tp : ℚ → ℕ → ℚ) (scores : List (String × ℚ))
    (generos : String → Option Genero) (b : Bool) :
    (aplicar_reponderacao tp scores generos b).peso_ajuste_feminino =
      (calcular_pesos_ajuste (agrupar_scores scores generos)).1 ∧
    (aplicar_reponderacao tp scores generos b).peso_ajuste_masculino =
      (calcular_pesos_ajuste (agrupar_scores scores generos)).2 ∧
    ((aplicar_reponderacao tpHalf scoresFM generosPadrao false).analise_pos_ajuste = none ∧
      (aplicar_reponderacao tpHalf scoresFM generosPadrao false).scores_ajustados = scoresFM ∧
      1 < (aplicar_reponderacao tpHalf scoresFM generosPadrao false).peso_ajuste_feminino) := by
  refine ⟨?_, ?_, ?_, ?_, ?_⟩
  · simp only [aplicar_reponderacao]
    split <;> rfl
  · simp only [aplicar_reponderacao]
    split <;> rfl
  · simp [aplicar_reponderacao]
  · simp [aplicar_reponderacao]
  · norm_num +decide [aplicar_reponderacao, scoresFM, generosPadrao, agrupar_scores,
      calcular_pesos_ajuste, npMean, List.filter]

end BiasRemove
